import Mathlib

/-!
Verification of the borgmatic process-execution core and its callers.

The source tree provides the callers (`borgmatic/borg/prune.py`,
`borgmatic/actions/prune.py`, `borgmatic/hooks/postgresql.py`) and the unit
tests of the executor (`tests/unit/test_execute.py`); the executor module
`borgmatic/execute.py` itself is absent, so its operations are modelled from
the specification, with behavior pinned by the repository's own unit tests
where those tests fix a case concretely.

Machine conventions: Python `None`-able arguments become `Option`; Python
exceptions become `Except`; side effects (spawned processes, kill requests,
log lines) are reified as explicit records returned by the model.
-/

/-- The basename of a path: everything after the last slash (as in Python's
`os.path.basename`). -/
def basenameChars : List Char → List Char → List Char
  | [], acc => acc
  | c :: rest, acc =>
    if c = '/' then basenameChars rest [] else basenameChars rest (acc ++ [c])

def basename (path : String) : String :=
  String.mk (basenameChars path.data [])

/-- Modelled from the spec: the Exit Code Classifier of the absent
`borgmatic/execute.py` (`exit_code_indicates_error`).  Rules follow spec
section 4.2: a negative code is an error; code 1 is an error unless the
invoked program's basename equals the configured wrapped-tool path; code 0 is
never an error; any other positive code is an error.  For an absent exit code
the spec and the repository's unit tests disagree: the test table in
`tests/unit/test_execute.py` pins `(['borg'], None, None)` to not-error, and
this model follows the tests, which are the only code of the repository that
fixes the case. -/
def exit_code_indicates_error (command : List String) (exit_code : Option Int)
    (borg_local_path : Option String) : Bool :=
  match exit_code with
  | none => false
  | some code =>
    if code < 0 then true
    else if code = 1 then
      match borg_local_path with
      | some borg => !(basename (command.headD "") == borg)
      | none => true
    else code != 0

/-- One row of the parametrized unit test
`test_exit_code_indicates_error_respects_exit_code_and_borg_local_path`. -/
structure ExitCodeTestRow where
  command : List String
  exit_code : Option Int
  borg_local_path : Option String
  expected_result : Bool

/-- The full parametrize table of
`test_exit_code_indicates_error_respects_exit_code_and_borg_local_path`,
transcribed from `tests/unit/test_execute.py`. -/
def exit_code_test_table : List ExitCodeTestRow :=
  [⟨["grep"], some 2, none, true⟩,
   ⟨["grep"], some 2, some "borg", true⟩,
   ⟨["borg"], some 2, some "borg", true⟩,
   ⟨["borg1"], some 2, some "borg1", true⟩,
   ⟨["grep"], some 1, none, true⟩,
   ⟨["grep"], some 1, some "borg", true⟩,
   ⟨["borg"], some 1, some "borg", false⟩,
   ⟨["borg1"], some 1, some "borg1", false⟩,
   ⟨["grep"], some 0, none, false⟩,
   ⟨["grep"], some 0, some "borg", false⟩,
   ⟨["borg"], some 0, some "borg", false⟩,
   ⟨["borg1"], some 0, some "borg1", false⟩,
   ⟨["grep"], some (-9), none, true⟩,
   ⟨["grep"], some (-9), some "borg", true⟩,
   ⟨["borg"], some (-9), some "borg", true⟩,
   ⟨["borg1"], some (-9), some "borg1", true⟩,
   ⟨["borg"], none, none, false⟩]

/-- The modelled classifier reproduces every row of the repository's unit
test table, validating the model against the only executable authority for
the absent module. -/
theorem exit_code_model_matches_unit_tests :
    exit_code_test_table.all
      (fun row =>
        exit_code_indicates_error row.command row.exit_code row.borg_local_path
          == row.expected_result) = true := by
  decide

/-- C1: for every command at exit code 1 with a configured wrapped-tool name,
the classifier reports an error exactly when the invoked program's basename
differs from the configured wrapped-tool path, and reports not-error when the
basename equals it. -/
theorem exit_code_one_error_iff_program_differs
    (command : List String) (borg : String) :
    exit_code_indicates_error command (some 1) (some borg) = true
      ↔ basename (command.headD "") ≠ borg := by
  simp [exit_code_indicates_error]

/-- Concrete instances of `exit_code_one_error_iff_program_differs`: `grep`
at exit code 1 wrapped as `borg` is an error; `borg` itself is tolerated. -/
theorem exit_code_one_error_iff_program_differs_witness :
    exit_code_indicates_error ["grep"] (some 1) (some "borg") = true
      ∧ ¬ exit_code_indicates_error ["borg"] (some 1) (some "borg") = true := by
  constructor
  · exact (exit_code_one_error_iff_program_differs ["grep"] "borg").mpr (by decide)
  · intro h
    have := (exit_code_one_error_iff_program_differs ["borg"] "borg").mp h
    exact this (by decide)

/-- C2 counterexample: at the concrete input `(['borg'], None, None)` the
classifier returns not-error, exactly as the repository's unit test table
demands, refuting the claim that an absent exit code is classified as an
error. -/
theorem exit_code_none_claim_counterexample :
    exit_code_indicates_error ["borg"] none none = false := by
  rfl

/-- C2 amended: for every command and every wrapped-tool name, an absent
exit code is classified as not-error. -/
theorem exit_code_none_not_error (command : List String)
    (borg : Option String) :
    exit_code_indicates_error command none borg = false := by
  rfl

/-- C6: exit code 0 is never an error, and any negative exit code (process
terminated by a signal) is always an error, regardless of program identity
and configured wrapped-tool name. -/
theorem exit_code_zero_never_error_negative_always_error
    (command : List String) (borg : Option String) :
    exit_code_indicates_error command (some 0) borg = false
      ∧ ∀ code : Int, code < 0 →
          exit_code_indicates_error command (some code) borg = true := by
  constructor
  · cases borg <;> rfl
  · intro code hcode
    simp [exit_code_indicates_error, if_pos hcode]

/-- Concrete instance of `exit_code_zero_never_error_negative_always_error`
at exit code -9 (SIGKILL), matching the unit-test rows. -/
theorem exit_code_zero_never_error_negative_always_error_witness :
    exit_code_indicates_error ["grep"] (some 0) (some "borg") = false
      ∧ exit_code_indicates_error ["grep"] (some (-9)) (some "borg") = true := by
  refine ⟨(exit_code_zero_never_error_negative_always_error ["grep"] (some "borg")).1, ?_⟩
  exact (exit_code_zero_never_error_negative_always_error ["grep"] (some "borg")).2 (-9) (by decide)

/-- Modelled from the spec: the fixed capacity of the Trailing Line Buffer
(`ERROR_OUTPUT_MAX_LINE_COUNT` of the absent `borgmatic/execute.py`); the
spec fixes it at 10 lines and the unit tests use the constant only
symbolically. -/
def ERROR_OUTPUT_MAX_LINE_COUNT : Nat := 10

/-- The mutable state threaded through the Output Stream Pump for one
process: the trailing line buffer, the withheld-output accumulator, and the
lines handed to the logging collaborator (with their severity). -/
structure OutputState where
  last_lines : List String
  captured_output : List String
  logged : List (Nat × String)
deriving DecidableEq, Repr

/-- Modelled from the spec: `append_last_lines` of the absent
`borgmatic/execute.py`.  The line is appended to the trailing buffer; when
the buffer then exceeds `ERROR_OUTPUT_MAX_LINE_COUNT` the oldest line is
dropped.  With output log level "none" the line goes to the captured-output
accumulator, otherwise it is logged at the requested level — exactly the
branching the unit tests `test_append_last_lines_*` exercise. -/
def append_last_lines (output_log_level : Option Nat) (st : OutputState)
    (line : String) : OutputState :=
  let appended := st.last_lines ++ [line]
  let last_lines :=
    if appended.length > ERROR_OUTPUT_MAX_LINE_COUNT then appended.tail
    else appended
  match output_log_level with
  | none =>
    { st with last_lines := last_lines,
              captured_output := st.captured_output ++ [line] }
  | some lvl =>
    { st with last_lines := last_lines, logged := st.logged ++ [(lvl, line)] }

/-- Feeding a sequence of lines through `append_last_lines`, one at a
time. -/
def feed_lines (output_log_level : Option Nat) (st : OutputState)
    (lines : List String) : OutputState :=
  lines.foldl (append_last_lines output_log_level) st

/-- The trailing buffer after an append, independent of the log level. -/
theorem append_last_lines_buffer (output_log_level : Option Nat)
    (st : OutputState) (line : String) :
    (append_last_lines output_log_level st line).last_lines =
      if (st.last_lines ++ [line]).length > ERROR_OUTPUT_MAX_LINE_COUNT
      then (st.last_lines ++ [line]).tail else st.last_lines ++ [line] := by
  cases output_log_level <;> rfl

/-- C5: the trailing line buffer is a fixed-capacity FIFO sliding window of
at most 10 lines: appending to a buffer already holding 10 lines evicts
exactly the oldest line, and feeding 11 sequential lines from an empty state
leaves exactly the last 10, in order. -/
theorem trailing_buffer_fifo_capacity_ten (output_log_level : Option Nat) :
    (∀ (st : OutputState) (line : String),
      st.last_lines.length = ERROR_OUTPUT_MAX_LINE_COUNT →
        (append_last_lines output_log_level st line).last_lines =
          st.last_lines.tail ++ [line])
    ∧ ∀ a1 a2 a3 a4 a5 a6 a7 a8 a9 a10 a11 : String,
        (feed_lines output_log_level ⟨[], [], []⟩
            [a1, a2, a3, a4, a5, a6, a7, a8, a9, a10, a11]).last_lines =
          [a2, a3, a4, a5, a6, a7, a8, a9, a10, a11] := by
  constructor
  · intro st line hlen
    have hne : st.last_lines ≠ [] := by
      intro h
      rw [h] at hlen
      simp [ERROR_OUTPUT_MAX_LINE_COUNT] at hlen
    rw [append_last_lines_buffer]
    rw [if_pos (by simp [hlen, ERROR_OUTPUT_MAX_LINE_COUNT])]
    exact List.tail_append_singleton_of_ne_nil hne
  · intro a1 a2 a3 a4 a5 a6 a7 a8 a9 a10 a11
    cases output_log_level
      <;> simp [feed_lines, append_last_lines, ERROR_OUTPUT_MAX_LINE_COUNT]

/-- Concrete instance of `trailing_buffer_fifo_capacity_ten`: a full buffer
of the lines "0" … "9" receives "line" and drops "0", matching
`test_append_last_lines_over_max_line_count_trims_and_appends`. -/
theorem trailing_buffer_fifo_capacity_ten_witness :
    (append_last_lines (some 20)
        ⟨["0", "1", "2", "3", "4", "5", "6", "7", "8", "9"], [], []⟩
        "line").last_lines =
      ["1", "2", "3", "4", "5", "6", "7", "8", "9", "line"] := by
  exact (trailing_buffer_fifo_capacity_ten (some 20)).1
    ⟨["0", "1", "2", "3", "4", "5", "6", "7", "8", "9"], [], []⟩ "line" (by decide)

/-- Modelled from the spec: the Command Formatter (`log_command` of the
absent `borgmatic/execute.py`).  The rendered line is the command sequence
space-joined, prefixed by a `KEY=***` token for every extra-environment
entry (values redacted), and suffixed by `< name` / `> name` annotations for
supplied input/output files. -/
def log_command (full_command : List String)
    (input_file output_file : Option String)
    (environment : List (String × String)) : String :=
  " ".intercalate (environment.map (fun kv => kv.1 ++ "=***") ++ full_command)
    ++ (match input_file with | some n => " < " ++ n | none => "")
    ++ (match output_file with | some n => " > " ++ n | none => "")

/-- C8: formatting `('foo','bar')` with no redirections and no environment
yields exactly `"foo bar"`; adding the environment `{'DBPASS': 'secret'}`
yields exactly `"DBPASS=*** foo bar"`; and in general the rendered string
depends only on the environment's keys — every value is redacted, never
echoed. -/
theorem log_command_renders_and_redacts :
    log_command ["foo", "bar"] none none [] = "foo bar"
    ∧ log_command ["foo", "bar"] none none [("DBPASS", "secret")] =
        "DBPASS=*** foo bar"
    ∧ ∀ (full_command : List String) (input_file output_file : Option String)
        (environment : List (String × String)),
        log_command full_command input_file output_file environment =
          log_command full_command input_file output_file
            (environment.map (fun kv => (kv.1, ""))) := by
  refine ⟨rfl, rfl, ?_⟩
  intro full_command input_file output_file environment
  simp only [log_command, List.map_map]
  rfl

/-- An upstream process handle supplied to the Pipeline Executor: its
identity and the termination error (if any) that its kill method would
raise during cleanup. -/
structure UpstreamProcess where
  pid : Nat
  kill_error : Option String
deriving DecidableEq, Repr

/-- What one Pipeline Executor invocation did: the kill requests it issued
(one list entry per request, in order), the termination errors those
requests raised (swallowed, best-effort), and the value or exception
handed back to the caller. -/
structure PipelineOutcome where
  kill_requests : List Nat
  cleanup_errors : List String
  result : Except String (Option String)
deriving Repr

/-- Modelled from the spec: the Pipeline Executor
(`execute_command_with_processes` of the absent `borgmatic/execute.py`).
The launch of the terminal command and its subsequent wait are each either
a success or a failure carrying the raised error; on either failure every
supplied upstream process is sent one kill request, termination errors from
those requests are recorded but swallowed, and the original failure is
re-raised.  On success no kill request is issued and the captured output is
returned. -/
def execute_command_with_processes (launch : Except String Unit)
    (terminal : Except String (Option String))
    (processes : List UpstreamProcess) : PipelineOutcome :=
  match launch with
  | .error e =>
    { kill_requests := processes.map UpstreamProcess.pid,
      cleanup_errors := processes.filterMap UpstreamProcess.kill_error,
      result := .error e }
  | .ok () =>
    match terminal with
    | .error e =>
      { kill_requests := processes.map UpstreamProcess.pid,
        cleanup_errors := processes.filterMap UpstreamProcess.kill_error,
        result := .error e }
    | .ok out =>
      { kill_requests := [], cleanup_errors := [], result := .ok out }

/-- C3: when the terminal command of a pipeline fails (at launch or at
wait), every supplied upstream process handle receives exactly one kill
request, and the exception that propagates to the caller is the original
terminal failure — never one of the termination errors raised during
cleanup. -/
theorem pipeline_failure_kills_each_upstream_once
    (launch : Except String Unit) (terminal : Except String (Option String))
    (processes : List UpstreamProcess) (e : String)
    (hfail : launch = .error e ∨ (launch = .ok () ∧ terminal = .error e))
    (hnodup : (processes.map UpstreamProcess.pid).Nodup) :
    (∀ p ∈ processes,
      (execute_command_with_processes launch terminal
          processes).kill_requests.count p.pid = 1)
    ∧ (execute_command_with_processes launch terminal
        processes).result = .error e := by
  have houtcome :
      execute_command_with_processes launch terminal processes =
        { kill_requests := processes.map UpstreamProcess.pid,
          cleanup_errors := processes.filterMap UpstreamProcess.kill_error,
          result := .error e } := by
    rcases hfail with h | ⟨h1, h2⟩
    · rw [h]; rfl
    · rw [h1, h2]; rfl
  rw [houtcome]
  refine ⟨?_, rfl⟩
  intro p hp
  exact List.count_eq_one_of_mem hnodup (List.mem_map_of_mem _ hp)

/-- Concrete instance of `pipeline_failure_kills_each_upstream_once`: a
failing launch with two upstream processes, one of whose kill methods
itself fails; each is killed once and the launch failure propagates. -/
theorem pipeline_failure_kills_each_upstream_once_witness :
    (∀ p ∈ [UpstreamProcess.mk 1 (some "kill failed"), UpstreamProcess.mk 2 none],
      (execute_command_with_processes (.error "terminal failed") (.ok none)
          [UpstreamProcess.mk 1 (some "kill failed"),
           UpstreamProcess.mk 2 none]).kill_requests.count p.pid = 1)
    ∧ (execute_command_with_processes (.error "terminal failed") (.ok none)
        [UpstreamProcess.mk 1 (some "kill failed"),
         UpstreamProcess.mk 2 none]).result = .error "terminal failed" := by
  exact pipeline_failure_kills_each_upstream_once (.error "terminal failed")
    (.ok none)
    [UpstreamProcess.mk 1 (some "kill failed"), UpstreamProcess.mk 2 none]
    "terminal failed" (Or.inl rfl) (by decide)

/-- The failure object of a completed child process, as raised by the
process launcher: the exit code and the output captured up to the
failure. -/
structure CalledProcessError where
  returncode : Int
  output : String
deriving DecidableEq, Repr

/-- Modelled from the spec: the capture-only executor
(`execute_command_and_capture_output` of the absent
`borgmatic/execute.py`).  The synchronous run of the command either
produces the captured output or raises a process failure; on failure the
exit code is classified, the failure is re-raised when it classifies as an
error, and otherwise the output captured up to the failure is returned. -/
def execute_command_and_capture_output (full_command : List String)
    (borg_local_path : Option String)
    (raw : Except CalledProcessError String) : Except CalledProcessError String :=
  match raw with
  | .ok output => .ok output
  | .error e =>
    if exit_code_indicates_error full_command (some e.returncode) borg_local_path
    then .error e
    else .ok e.output

/-- C7: the capture-only executor re-raises the underlying process failure
exactly when the classifier deems the exit code an error; when the
classifier deems it non-erroring, the partially captured output is returned
instead of raising. -/
theorem capture_output_reraises_iff_classified_error
    (full_command : List String) (borg_local_path : Option String)
    (e : CalledProcessError) :
    (exit_code_indicates_error full_command (some e.returncode)
        borg_local_path = true →
      execute_command_and_capture_output full_command borg_local_path
        (.error e) = .error e)
    ∧ (exit_code_indicates_error full_command (some e.returncode)
        borg_local_path = false →
      execute_command_and_capture_output full_command borg_local_path
        (.error e) = .ok e.output) := by
  constructor
  · intro h
    simp [execute_command_and_capture_output, h]
  · intro h
    simp [execute_command_and_capture_output, h]

/-- Concrete instances of `capture_output_reraises_iff_classified_error`,
mirroring the two unit tests: exit code 2 re-raises, while exit code 1 from
the wrapped tool itself returns the captured output. -/
theorem capture_output_reraises_iff_classified_error_witness :
    execute_command_and_capture_output ["foo", "bar"] none
        (.error ⟨2, "[]"⟩) = .error ⟨2, "[]"⟩
    ∧ execute_command_and_capture_output ["borg"] (some "borg")
        (.error ⟨1, "[]"⟩) = .ok "[]" := by
  constructor
  · exact (capture_output_reraises_iff_classified_error ["foo", "bar"] none
      ⟨2, "[]"⟩).1 (by decide)
  · exact (capture_output_reraises_iff_classified_error ["borg"] (some "borg")
      ⟨1, "[]"⟩).2 (by decide)

/-- Python log levels as used by the prune caller: `logging.DEBUG`,
`logging.INFO`, and borgmatic's custom `ANSWER` level between INFO and
WARNING. -/
def LOG_INFO : Nat := 20

def LOG_ANSWER : Nat := 25

/-- `dict.pop(key, default)` on an insertion-ordered dictionary with unique
keys: the popped value (or the default) together with the dictionary
without the key. -/
def dictPop (d : List (String × String)) (key dflt : String) :
    String × List (String × String) :=
  match d.find? (fun kv => kv.1 == key) with
  | some kv => (kv.2, d.filter (fun kv2 => !(kv2.1 == key)))
  | none => (dflt, d)

/-- `dict[key] = value` on an insertion-ordered dictionary: overwrite in
place when the key exists, append otherwise. -/
def dictSet (d : List (String × String)) (key value : String) :
    List (String × String) :=
  if d.any (fun kv => kv.1 == key) then
    d.map (fun kv => if kv.1 == key then (key, value) else kv)
  else d ++ [(key, value)]

/-- Python's `name.replace('_', '-')` for a single-character pattern. -/
def replaceUnderscoresWithDashes (s : String) : String :=
  String.mk (s.data.map (fun c => if c = '_' then '-' else c))

/-- `make_prune_flags` of `borgmatic/borg/prune.py`: pop the retention
prefix (defaulting to `{hostname}-`), add the matching archive-glob option
when the prefix is non-empty (`match_archives` when the borg feature is
available, `glob_archives` otherwise), and render every remaining option as
a `--name value` flag pair.  Retention values arrive already stringified
(the source applies `str`); `feature.available` lives outside the source
tree and enters as the boolean `match_archives_available`. -/
def make_prune_flags (retention_config : List (String × String))
    (match_archives_available : Bool) : List (String × String) :=
  let popped := dictPop retention_config "prefix" "{hostname}-"
  let pfx := popped.1
  let config := popped.2
  let config :=
    if pfx != "" then
      if match_archives_available then
        dictSet config "match_archives" ("sh:" ++ pfx ++ "*")
      else
        dictSet config "glob_archives" (pfx ++ "*")
    else config
  config.map (fun kv => ("--" ++ replaceUnderscoresWithDashes kv.1, kv.2))

/-- The storage-config entries `prune_archives` reads: `umask` and
`lock_wait` (numbers, included only when truthy, i.e. present and
non-zero) and `extra_borg_options.prune` (a string, split on spaces when
non-empty). -/
structure StorageConfig where
  umask : Option Nat
  lock_wait : Option Nat
  extra_borg_options_prune : String
deriving DecidableEq, Repr

/-- The collaborators of `prune_archives` that live outside the source
tree, entering the model as oracles: `feature.available(MATCH_ARCHIVES,
version)`, `flags.make_repository_flags`, the logger's effective-level
queries, and `environment.make_environment(storage_config)`. -/
structure PruneEnv where
  match_archives_available : Bool
  make_repository_flags : String → List String
  info_level_active : Bool
  debug_enabled : Bool
  storage_environment : List (String × String)

/-- One call into the executor core: the arguments `execute_command`
receives. -/
structure ExecuteInvocation where
  command : List String
  output_log_level : Nat
  borg_local_path : String
  extra_environment : List (String × String)
deriving DecidableEq, Repr

/-- `prune_archives` of `borgmatic/borg/prune.py`: build the full borg
prune command from the configs and invoke `execute_command` with it — the
function has no dry-run short-circuit, it only appends borg's own
`--dry-run` flag (and suppresses `--stats`) when the dry-run flag is set.
The returned record is the executor invocation it performs.  Python
defaults: `local_path='borg'`, `remote_path=None`, `stats=False`,
`list_archives=False`. -/
def prune_archives (dry_run : Bool) (repository_path : String)
    (storage_config : StorageConfig)
    (retention_config : List (String × String)) (env : PruneEnv)
    (local_path : String) (remote_path : Option String) (stats : Bool)
    (list_archives : Bool) : ExecuteInvocation :=
  let full_command :=
    [local_path, "prune"]
    ++ (make_prune_flags retention_config env.match_archives_available).flatMap
        (fun kv => [kv.1, kv.2])
    ++ (match remote_path with | some r => ["--remote-path", r] | none => [])
    ++ (match storage_config.umask with
        | some u => if u != 0 then ["--umask", toString u] else []
        | none => [])
    ++ (match storage_config.lock_wait with
        | some w => if w != 0 then ["--lock-wait", toString w] else []
        | none => [])
    ++ (if stats && !dry_run then ["--stats"] else [])
    ++ (if env.info_level_active then ["--info"] else [])
    ++ (if list_archives then ["--list"] else [])
    ++ (if env.debug_enabled then ["--debug", "--show-rc"] else [])
    ++ (if dry_run then ["--dry-run"] else [])
    ++ (if storage_config.extra_borg_options_prune != "" then
          storage_config.extra_borg_options_prune.splitOn " " else [])
    ++ env.make_repository_flags repository_path
  { command := full_command,
    output_log_level := if stats || list_archives then LOG_ANSWER else LOG_INFO,
    borg_local_path := local_path,
    extra_environment := env.storage_environment }

/-- Binding of a Python call with `numPositional` positional arguments and
the given keyword-argument names against a function whose parameters are
`params` (the first `numRequired` without defaults): the `TypeError` the
interpreter raises before entering the body, or success. -/
def bindPythonCall (params : List String) (numRequired numPositional : Nat)
    (keywords : List String) : Except String Unit :=
  if params.length < numPositional then
    .error "too many positional arguments"
  else
    match keywords.filter (fun k => (params.take numPositional).contains k) with
    | k :: _ => .error ("got multiple values for argument " ++ k)
    | [] =>
      if keywords.any (fun k => !params.contains k) then
        .error "unexpected keyword argument"
      else if ((params.take numRequired).drop numPositional).any
          (fun p => !keywords.contains p) then
        .error "missing required argument"
      else .ok ()

/-- The parameter list of `prune_archives` in `borgmatic/borg/prune.py`;
the first five have no defaults. -/
def prune_archives_params : List String :=
  ["dry_run", "repository_path", "storage_config", "retention_config",
   "local_borg_version", "local_path", "remote_path", "stats",
   "list_archives"]

/-- The call shape of `borgmatic.borg.prune.prune_archives(...)` inside
`run_prune` of `borgmatic/actions/prune.py`: seven positional arguments
(`dry_run`, `repository['path']`, `storage`, `retention`,
`local_borg_version`, `global_arguments`, `prune_arguments`) followed by
two keyword arguments. -/
def run_prune_positional_count : Nat := 7

def run_prune_keyword_arguments : List String :=
  ["local_path", "remote_path"]

instance : DecidableEq (Except String Unit) := fun a b =>
  match a, b with
  | .error x, .error y =>
    if h : x = y then isTrue (by rw [h])
    else isFalse (fun he => by cases he; exact h rfl)
  | .error _, .ok _ => isFalse (fun he => by cases he)
  | .ok _, .error _ => isFalse (fun he => by cases he)
  | .ok (), .ok () => isTrue rfl

/-- The observable milestones of `run_prune`. -/
inductive PruneEvent
  | pre_hook
  | prune_invocation
  | post_hook
deriving DecidableEq, Repr

/-- `run_prune` of `borgmatic/actions/prune.py`, reduced to its control
flow: when the repository check fails it returns immediately; otherwise it
runs the pre-prune hook, then calls `prune_archives` with the call shape
above — whose argument binding the interpreter checks before the callee
body runs — and only on a successful call reaches the prune invocation and
the post-prune hook.  The returned pair is the milestones reached and the
final outcome. -/
def run_prune (repository_matches : Bool) :
    List PruneEvent × Except String Unit :=
  if !repository_matches then ([], .ok ())
  else
    match bindPythonCall prune_archives_params 5 run_prune_positional_count
        run_prune_keyword_arguments with
    | .error e => ([.pre_hook], .error e)
    | .ok _ => ([.pre_hook, .prune_invocation, .post_hook], .ok ())

/-- C9: whenever the repository check passes, the `prune_archives` call in
`run_prune` binds `local_path` twice — it is the sixth parameter, filled by
the sixth positional argument (`global_arguments`), and is passed again by
keyword — so the call fails with an argument-binding type error, no borg
prune command is executed, and the post-prune hook is never reached. -/
theorem run_prune_always_fails_on_double_bound_local_path :
    prune_archives_params.get? 5 = some "local_path"
    ∧ "local_path" ∈ run_prune_keyword_arguments
    ∧ "local_path" ∈ prune_archives_params.take run_prune_positional_count
    ∧ run_prune true =
        ([PruneEvent.pre_hook],
          Except.error "got multiple values for argument local_path")
    ∧ PruneEvent.prune_invocation ∉ (run_prune true).1
    ∧ PruneEvent.post_hook ∉ (run_prune true).1 := by
  decide

/-- C4 counterexample: with the dry-run flag set, `prune_archives` still
invokes the executor core — at this concrete configuration it executes
`borg prune --match-archives sh:{hostname}-* --dry-run` — instead of
short-circuiting without spawning a process. -/
theorem prune_archives_dry_run_still_invokes_executor :
    (prune_archives true "repo" ⟨none, none, ""⟩ []
        ⟨true, fun _ => [], false, false, []⟩ "borg" none false
        false).command =
      ["borg", "prune", "--match-archives", "sh:{hostname}-*",
       "--dry-run"] := by
  decide

/-- One database entry of the PostgreSQL hook configuration
(`borgmatic/hooks/postgresql.py`), with exactly the keys `dump_databases`
and its helpers read; an absent key is `none`. -/
structure DatabaseConfig where
  name : String
  format : Option String
  hostname : Option String
  port : Option Nat
  username : Option String
  password : Option String
  ssl_mode : Option String
  ssl_cert : Option String
  ssl_key : Option String
  ssl_root_cert : Option String
  ssl_crl : Option String
  pg_dump_command : Option String
  options : Option String
  list_options : Option String
deriving DecidableEq, Repr

/-- A database entry carrying only a name, every optional key absent. -/
def simpleDatabase (name : String) : DatabaseConfig :=
  ⟨name, none, none, none, none, none, none, none, none, none, none, none,
   none, none⟩

/-- Python truthiness of an optional string: present and non-empty. -/
def truthyStr : Option String → Bool
  | none => false
  | some s => s != ""

/-- `make_extra_environment` of `borgmatic/hooks/postgresql.py`. -/
def make_extra_environment (db : DatabaseConfig) : List (String × String) :=
  (match db.password with | some p => [("PGPASSWORD", p)] | none => [])
  ++ [("PGSSLMODE", db.ssl_mode.getD "disable")]
  ++ (match db.ssl_cert with | some c => [("PGSSLCERT", c)] | none => [])
  ++ (match db.ssl_key with | some k => [("PGSSLKEY", k)] | none => [])
  ++ (match db.ssl_root_cert with
      | some r => [("PGSSLROOTCERT", r)] | none => [])
  ++ (match db.ssl_crl with | some c => [("PGSSLCRL", c)] | none => [])

def EXCLUDED_DATABASE_NAMES : List String := ["template0", "template1"]

/-- The external world `dump_databases` interacts with, as oracles:
`os.path.exists`, `dump.make_database_dump_filename` applied to the
hook's dump path (the `dump` module lives outside the source tree), and
the first column of each row of the `psql --list --csv` output used for
an `"all"` database with a format (the listing subprocess and the csv
parse of its output). -/
structure DumpContext where
  fileExists : String → Bool
  make_database_dump_filename : String → Option String → String
  all_database_rows : DatabaseConfig → List String

/-- `database_names_to_dump` of `borgmatic/hooks/postgresql.py`: a concrete
requested name is returned alone; `"all"` without a format stays `"all"`;
`"all"` with a format queries the server and keeps every row whose first
column is not an excluded template database. -/
def database_names_to_dump (ctx : DumpContext) (db : DatabaseConfig) :
    List String :=
  if db.name != "all" then [db.name]
  else if !truthyStr db.format then ["all"]
  else (ctx.all_database_rows db).filter
    (fun row => !EXCLUDED_DATABASE_NAMES.contains row)

/-- One dump process handed back by `dump_databases`: the shell command it
was spawned with (`run_to_completion=False`), the dump destination, the
dumped database name, and the extra environment. -/
structure DumpProcess where
  command : List String
  dump_filename : String
  database_name : String
  extra_environment : List (String × String)
deriving DecidableEq, Repr

/-- The body of the inner loop of `dump_databases` for one database name:
compute the dump format (defaulting to `custom` except for `"all"`), the
dump program, and the destination filename; skip (returning no process)
when the destination already exists, and skip after building the command
when this is a dry run; otherwise produce the spawned dump process. -/
def dump_one_name (ctx : DumpContext) (dry_run : Bool) (db : DatabaseConfig)
    (database_name : String) : Option DumpProcess :=
  let dump_format : Option String :=
    match db.format with
    | some f => some f
    | none => if database_name == "all" then none else some "custom"
  let default_dump_command :=
    if database_name == "all" then "pg_dumpall" else "pg_dump"
  let dump_command :=
    match db.pg_dump_command with
    | some c => if c != "" then c else default_dump_command
    | none => default_dump_command
  let dump_filename := ctx.make_database_dump_filename database_name db.hostname
  if ctx.fileExists dump_filename then none
  else
    let command :=
      [dump_command, "--no-password", "--clean", "--if-exists"]
      ++ (match db.hostname with | some h => ["--host", h] | none => [])
      ++ (match db.port with | some p => ["--port", toString p] | none => [])
      ++ (match db.username with | some u => ["--username", u] | none => [])
      ++ (if truthyStr dump_format then ["--format", dump_format.getD ""]
          else [])
      ++ (if dump_format == some "directory" then ["--file", dump_filename]
          else [])
      ++ (match db.options with | some o => o.splitOn " " | none => [])
      ++ (if database_name == "all" then [] else [database_name])
      ++ (if dump_format != some "directory" then [">", dump_filename]
          else [])
    if dry_run then none
    else
      some { command := command, dump_filename := dump_filename,
             database_name := database_name,
             extra_environment := make_extra_environment db }

/-- The body of the outer loop of `dump_databases` for one database entry:
raise `ValueError` when no names to dump can be determined, otherwise
collect the processes the inner loop spawns. -/
def dump_one_database (ctx : DumpContext) (dry_run : Bool)
    (db : DatabaseConfig) : Except String (List DumpProcess) :=
  let names := database_names_to_dump ctx db
  if names.isEmpty then
    .error "Cannot find any PostgreSQL databases to dump."
  else .ok (names.filterMap (dump_one_name ctx dry_run db))

/-- The outer loop of `dump_databases`, threading the accumulated process
list; a raised `ValueError` aborts the whole call. -/
def dump_databases_go (ctx : DumpContext) (dry_run : Bool)
    (acc : List DumpProcess) :
    List DatabaseConfig → Except String (List DumpProcess)
  | [] => .ok acc
  | db :: rest =>
    match dump_one_database ctx dry_run db with
    | .error e => .error e
    | .ok procs => dump_databases_go ctx dry_run (acc ++ procs) rest

/-- `dump_databases` of `borgmatic/hooks/postgresql.py`: the sequence of
dump processes spawned (in order), or the `ValueError` raised. -/
def dump_databases (ctx : DumpContext) (databases : List DatabaseConfig)
    (dry_run : Bool) : Except String (List DumpProcess) :=
  dump_databases_go ctx dry_run [] databases

/-- Under dry run the inner loop never produces a process. -/
theorem dump_one_name_dry_run (ctx : DumpContext) (db : DatabaseConfig)
    (database_name : String) :
    dump_one_name ctx true db database_name = none := by
  simp [dump_one_name]

/-- Under dry run the outer-loop body raises or contributes nothing. -/
theorem dump_one_database_dry_run (ctx : DumpContext) (db : DatabaseConfig) :
    dump_one_database ctx true db =
        .error "Cannot find any PostgreSQL databases to dump."
      ∨ dump_one_database ctx true db = .ok [] := by
  by_cases h : (database_names_to_dump ctx db).isEmpty
  · left
    simp [dump_one_database, h]
  · right
    simp [dump_one_database, h, dump_one_name_dry_run]

/-- Under dry run the accumulated process list never grows. -/
theorem dump_databases_go_dry_run (ctx : DumpContext) :
    ∀ (databases : List DatabaseConfig) (acc : List DumpProcess),
      dump_databases_go ctx true acc databases = .ok acc
        ∨ ∃ msg, dump_databases_go ctx true acc databases = .error msg := by
  intro databases
  induction databases with
  | nil => intro acc; left; rfl
  | cons db rest ih =>
    intro acc
    rcases dump_one_database_dry_run ctx db with h | h
    · right
      refine ⟨"Cannot find any PostgreSQL databases to dump.", ?_⟩
      simp [dump_databases_go, h]
    · have hstep : dump_databases_go ctx true acc (db :: rest) =
          dump_databases_go ctx true acc rest := by
        simp [dump_databases_go, h]
      rw [hstep]
      exact ih acc

/-- C4 amended: dry run is enforced inside the callers, not by skipping the
executor core wholesale.  `prune_archives` with the dry-run flag set still
invokes `execute_command` — its command merely carries borg's own
`--dry-run` flag — while `dump_databases` with the dry-run flag set spawns
no dump process: it returns the empty sequence (or raises its
no-databases `ValueError`). -/
theorem dry_run_callers_behavior :
    (∀ (repository_path : String) (storage_config : StorageConfig)
        (retention_config : List (String × String)) (env : PruneEnv)
        (local_path : String) (remote_path : Option String)
        (stats list_archives : Bool),
        "--dry-run" ∈ (prune_archives true repository_path storage_config
            retention_config env local_path remote_path stats
            list_archives).command)
    ∧ ∀ (ctx : DumpContext) (databases : List DatabaseConfig),
        dump_databases ctx databases true = .ok []
          ∨ ∃ msg, dump_databases ctx databases true = .error msg := by
  constructor
  · intro repository_path storage_config retention_config env local_path
      remote_path stats list_archives
    simp [prune_archives]
  · intro ctx databases
    exact dump_databases_go_dry_run ctx databases []

/-- Skipping one database whose dump file exists removes exactly its
contribution from the outer loop. -/
theorem dump_databases_go_skips (ctx : DumpContext) (db : DatabaseConfig)
    (hdb : dump_one_database ctx false db = .ok []) :
    ∀ (pre post : List DatabaseConfig) (acc : List DumpProcess),
      dump_databases_go ctx false acc (pre ++ db :: post) =
        dump_databases_go ctx false acc (pre ++ post) := by
  intro pre
  induction pre with
  | nil =>
    intro post acc
    simp [dump_databases_go, hdb]
  | cons d rest ih =>
    intro post acc
    cases h : dump_one_database ctx false d with
    | error e => simp [dump_databases_go, h]
    | ok procs =>
      simp only [List.cons_append, dump_databases_go, h]
      exact ih post (acc ++ procs)

/-- C10: outside dry run, a database whose computed dump filename already
exists on the filesystem contributes no dump process — it is omitted from
the returned sequence and the remaining databases are processed exactly as
if it were not listed. -/
theorem dump_databases_skips_database_with_existing_dump
    (ctx : DumpContext) (pre post : List DatabaseConfig)
    (db : DatabaseConfig) (hname : db.name ≠ "all")
    (hexists : ctx.fileExists
        (ctx.make_database_dump_filename db.name db.hostname) = true) :
    dump_one_database ctx false db = .ok []
    ∧ dump_databases ctx (pre ++ db :: post) false =
        dump_databases ctx (pre ++ post) false := by
  have hnames : database_names_to_dump ctx db = [db.name] := by
    simp [database_names_to_dump, hname]
  have hdb : dump_one_database ctx false db = .ok [] := by
    simp [dump_one_database, hnames, dump_one_name, hexists]
  exact ⟨hdb, dump_databases_go_skips ctx db hdb pre post []⟩

/-- A concrete world in which exactly the dump file of `db2` already
exists. -/
def skipContext : DumpContext :=
  ⟨fun s => s == "dump_db2", fun n _ => "dump_" ++ n, fun _ => []⟩

/-- Concrete instance of `dump_databases_skips_database_with_existing_dump`:
among `db1`, `db2`, `db3`, only `db2`'s dump file exists, and the call
behaves exactly as if `db2` were not listed. -/
theorem dump_databases_skips_database_with_existing_dump_witness :
    dump_databases skipContext
        [simpleDatabase "db1", simpleDatabase "db2", simpleDatabase "db3"]
        false =
      dump_databases skipContext
        [simpleDatabase "db1", simpleDatabase "db3"] false := by
  exact (dump_databases_skips_database_with_existing_dump skipContext
    [simpleDatabase "db1"] [simpleDatabase "db3"] (simpleDatabase "db2")
    (by decide) (by decide)).2
